import Mathlib

/-!
Verification of the response-decision and memory-orchestration pipeline of the
chat-automation agent: a shallow embedding of the memory store, message
batcher, availability simulator, typing-delay computation and multi-provider
AI dispatcher, with theorems settling the stated properties.

Persistence is modelled as a key-value store (a function from identity keys to
optionally stored records), matching the on-disk JSON layout at the
granularity the code reads and writes it.  Wall-clock time is modelled at
one-minute resolution (the code manipulates dates only through getHours,
setHours, setMinutes(0) and setDate).  JavaScript number arithmetic in the
typing-delay computation is modelled over the rationals.
-/

namespace DC

/-- RelationshipMemory record as created by createDefaultMemory in
utils/memory.js and persisted in memory.json. -/
structure RelationshipMemory where
  facts : List String
  trustLevel : Int
  romanticLevel : Int
  censorshipLevel : Int
  mood : String
  energy : String
deriving Repr, DecidableEq

/-- Server-wide memory record as loaded by loadServerMemory in utils/memory.js. -/
structure ServerMemory where
  facts : List String
  mood : String
  energy : String
deriving Repr, DecidableEq

/-- DM memory store: keyed by (botRole, userId), as memory/botRole/userId/memory.json. -/
abbrev DMStore := String × String → Option RelationshipMemory

/-- Per-user per-server memory store: keyed by (botRole, userId, serverId), as
memory/botRole/userId/servers/serverId/memory.json. -/
abbrev ServerUserStore := String × String × String → Option RelationshipMemory

/-- Server-global memory store: keyed by serverId, as servers/serverId/memory.json. -/
abbrev ServerStore := String → Option ServerMemory

/-- createDefaultMemory from utils/memory.js. -/
def createDefaultMemory : RelationshipMemory :=
  { facts := []
    trustLevel := 5
    romanticLevel := 0
    censorshipLevel := 8
    mood := "neutral"
    energy := "normal" }

/-- loadDMMemory from utils/memory.js: return the stored record for the key or
the default when nothing has been stored. -/
def loadDMMemory (store : DMStore) (botRole userId : String) : RelationshipMemory :=
  match store (botRole, userId) with
  | some m => m
  | none => createDefaultMemory

/-- saveDMMemory from utils/memory.js: write the record under the key. -/
def saveDMMemory (store : DMStore) (botRole userId : String)
    (m : RelationshipMemory) : DMStore :=
  fun k => if k = (botRole, userId) then some m else store k

/-- loadServerUserMemory from utils/memory.js. -/
def loadServerUserMemory (store : ServerUserStore) (botRole userId serverId : String) :
    RelationshipMemory :=
  match store (botRole, userId, serverId) with
  | some m => m
  | none => createDefaultMemory

/-- loadServerMemory from utils/memory.js, with its own inline default. -/
def loadServerMemory (store : ServerStore) (serverId : String) : ServerMemory :=
  match store serverId with
  | some m => m
  | none => { facts := [], mood := "neutral", energy := "normal" }

/-- JavaScript value-or-default on a number field: x || d, where 0 is falsy. -/
def jsOrInt (x d : Int) : Int :=
  if x = 0 then d else x

/-- JavaScript value-or-default on a string field: x || d, where "" is falsy. -/
def jsOrStr (x d : String) : String :=
  if x = "" then d else x

/-- The combined memory view handed to the prompt builder, as initialised at
the top of getCombinedPromptMemory in utils/memory.js. -/
structure CombinedPromptMemory where
  personalFacts : List String
  serverUserFacts : List String
  serverGlobalFacts : List String
  trustLevel : Int
  romanticLevel : Int
  censorshipLevel : Int
  userMood : String
  userEnergy : String
  serverMood : String
  serverEnergy : String
deriving Repr, DecidableEq

/-- getCombinedPromptMemory from utils/memory.js.  Every stored field is read
through the JavaScript || operator with the documented default on the right. -/
def getCombinedPromptMemory (dm : DMStore) (su : ServerUserStore) (sg : ServerStore)
    (botRole userId : String) (serverId mentionedServer : Option String) :
    CombinedPromptMemory :=
  let c0 : CombinedPromptMemory :=
    { personalFacts := []
      serverUserFacts := []
      serverGlobalFacts := []
      trustLevel := 5
      romanticLevel := 0
      censorshipLevel := 8
      userMood := "neutral"
      userEnergy := "normal"
      serverMood := "neutral"
      serverEnergy := "normal" }
  let c1 :=
    match serverId with
    | none =>
      let dmMemory := loadDMMemory dm botRole userId
      { c0 with
          personalFacts := dmMemory.facts
          trustLevel := jsOrInt dmMemory.trustLevel 5
          romanticLevel := jsOrInt dmMemory.romanticLevel 0
          censorshipLevel := jsOrInt dmMemory.censorshipLevel 8
          userMood := jsOrStr dmMemory.mood "neutral"
          userEnergy := jsOrStr dmMemory.energy "normal" }
    | some _ => c0
  let targetServerId := match serverId with
    | some sid => some sid
    | none => mentionedServer
  match targetServerId with
  | none => c1
  | some sid =>
    let serverUserMemory := loadServerUserMemory su botRole userId sid
    let c2 := { c1 with serverUserFacts := serverUserMemory.facts }
    let c3 :=
      match serverId with
      | some _ =>
        { c2 with
            trustLevel := jsOrInt serverUserMemory.trustLevel 5
            romanticLevel := jsOrInt serverUserMemory.romanticLevel 0
            censorshipLevel := jsOrInt serverUserMemory.censorshipLevel 8
            userMood := jsOrStr serverUserMemory.mood "neutral"
            userEnergy := jsOrStr serverUserMemory.energy "normal" }
      | none => c2
    let serverMemory := loadServerMemory sg sid
    { c3 with
        serverGlobalFacts := serverMemory.facts
        serverMood := jsOrStr serverMemory.mood "neutral"
        serverEnergy := jsOrStr serverMemory.energy "normal" }

/-! Message batching (utils/messageHandler.js). -/

/-- The fields of an inbound platform message that the batching code reads. -/
structure Msg where
  content : String
  authorId : String
  channelId : String
  guildId : Option String
  attachments : List String
deriving Repr, DecidableEq

/-- One entry of messageBuffers in utils/messageHandler.js (the timer handle
and startTime play no part in the flush logic). -/
structure MsgBuffer where
  messages : List Msg
  serverId : Option String
deriving Repr, DecidableEq

/-- The synthetic combined message built by processBatchedMessages: the spread
of the first buffered message with content, attachments, isBatched,
originalMessages, channel, guild and serverId overridden. -/
structure CombinedMessage where
  content : String
  authorId : String
  channelId : String
  guildId : Option String
  attachments : List String
  isBatched : Bool
  originalMessages : List Msg
  serverId : Option String
deriving Repr, DecidableEq

/-- JavaScript Array.prototype.join with a separator. -/
def jsJoin (sep : String) : List String → String
  | [] => ""
  | [s] => s
  | s :: rest => s ++ sep ++ jsJoin sep rest

/-- The in-memory buffer table, keyed by the userId-channelId composite. -/
abbrev Buffers := List (String × MsgBuffer)

/-- JavaScript delete messageBuffers[bufferKey]. -/
def eraseKey (buffers : Buffers) (key : String) : Buffers :=
  buffers.filter (fun p => p.1 ≠ key)

/-- processBatchedMessages from utils/messageHandler.js.  Returns the updated
buffer table together with the list of combined messages handed to the
processing callback (one call per element). -/
def processBatchedMessages (buffers : Buffers) (key : String) :
    Buffers × List CombinedMessage :=
  match buffers.lookup key with
  | none => (buffers, [])
  | some buf =>
    match h : buf.messages with
    | [] => (buffers, [])
    | first :: rest =>
      let msgs := first :: rest
      let lastMessage := msgs.getLast (by simp [msgs])
      let combined : CombinedMessage :=
        { content := jsJoin "\n" (msgs.map (fun m => m.content))
          authorId := first.authorId
          channelId := first.channelId
          guildId := first.guildId
          attachments := lastMessage.attachments
          isBatched := decide (1 < msgs.length)
          originalMessages := msgs
          serverId := buf.serverId }
      (eraseKey buffers key, [combined])

/-! Fact merging (processBatchedMemory in the main bot script). -/

/-- JavaScript [...new Set(l)]: deduplication keeping the first occurrence of
each element, in insertion order.  List.dedup keeps the last occurrence, so we
conjugate it with reversal. -/
def jsSetDedup (l : List String) : List String :=
  (l.reverse.dedup).reverse

/-- JavaScript l.slice(-n): the last min(n, length) elements. -/
def jsSliceLast (n : Nat) (l : List String) : List String :=
  l.drop (l.length - n)

/-- The facts update in processBatchedMemory:
userMemory.facts = [...new Set([...userMemory.facts, ...result.facts])].slice(-30). -/
def mergeFacts (old newFacts : List String) : List String :=
  jsSliceLast 30 (jsSetDedup (old ++ newFacts))

/-! Typing delay (utils/promptBuilder.js and utils/messageHandler.js). -/

/-- settings.MIN_TYPING_DELAY from settings.js. -/
def MIN_TYPING_DELAY : ℚ := 2000

/-- settings.MAX_TYPING_DELAY from settings.js. -/
def MAX_TYPING_DELAY : ℚ := 5000

/-- getTypingDelay from utils/promptBuilder.js: base speed 30 chars per
second, degraded to 20 when tired or sleepy, raised to 40 when energetic;
the seconds value is clamped to [2, 5] and converted to milliseconds. -/
def getTypingDelay (text : String) (energy : String) : ℚ :=
  let baseSpeed : ℚ := 30
  let speed : ℚ :=
    if energy = "tired" ∨ energy = "sleepy" then 20
    else if energy = "energetic" then 40
    else baseSpeed
  (min (max ((text.length : ℚ) / speed) 2) 5) * 1000

/-- getRealisticTypingDelay from utils/messageHandler.js.  energyLow is the
value of isEnergyLow(serverId) (a function of the hourly message counters);
rand is the Math.random() draw, in [0, 1). -/
def getRealisticTypingDelay (text : String) (energyLow : Bool) (rand : ℚ) : ℚ :=
  let energy := if energyLow then "tired" else "normal"
  let baseDelay := getTypingDelay text energy
  let variance := baseDelay * (1 / 5) * (rand * 2 - 1)
  let calculatedDelay := min (max (baseDelay + variance) MIN_TYPING_DELAY) MAX_TYPING_DELAY
  min (calculatedDelay * (3 / 5)) 2500

/-! Availability simulation (shouldGoAway in utils/messageHandler.js). -/

/-- Wall-clock time at one-minute resolution: minutes since an epoch, with
1440 minutes to a day. -/
abbrev TimeMin := Nat

/-- The calendar day of a time value. -/
def dayOf (t : TimeMin) : Nat := t / 1440

/-- Date.prototype.getHours. -/
def hourOf (t : TimeMin) : Nat := t % 1440 / 60

/-- setHours(h) followed by setMinutes(0) on a copy of the current date. -/
def setHoursMinutesZero (t : TimeMin) (h : Nat) : TimeMin :=
  dayOf t * 1440 + h * 60

/-- setDate(getDate() + d). -/
def addDays (t : TimeMin) (d : Nat) : TimeMin := t + d * 1440

/-- The aiStatus record of utils/messageHandler.js. -/
structure AiStatus where
  isAway : Bool
  awayReason : String
  awayUntil : Option TimeMin
deriving Repr, DecidableEq

/-- One hourly message counter: count plus time of last reset. -/
structure HourCounter where
  hourly : Nat
  lastReset : TimeMin
deriving Repr, DecidableEq

/-- The messageCounters record: a global counter and per-server counters. -/
structure MessageCounters where
  globalCounter : HourCounter
  servers : List (String × HourCounter)
deriving Repr, DecidableEq

/-- Configuration values read by shouldGoAway (settings.js). -/
structure AvailabilityConfig where
  ACTIVE_HOURS_START : Nat
  ACTIVE_HOURS_END : Nat
  MAX_MESSAGES_PER_HOUR : Nat
deriving Repr, DecidableEq

/-- The availability values of settings.js: active 7 to 24, 50 messages per hour. -/
def repoAvailabilityConfig : AvailabilityConfig :=
  { ACTIVE_HOURS_START := 7, ACTIVE_HOURS_END := 24, MAX_MESSAGES_PER_HOUR := 50 }

/-- initServerCounter from utils/messageHandler.js. -/
def initServerCounter (counters : MessageCounters) (serverId : String) (now : TimeMin) :
    MessageCounters :=
  match counters.servers.lookup serverId with
  | some _ => counters
  | none => { counters with servers := (serverId, ⟨0, now⟩) :: counters.servers }

/-- Read the counter for a scope (global when serverId is null). -/
def readCounter (counters : MessageCounters) (serverId : Option String) : HourCounter :=
  match serverId with
  | none => counters.globalCounter
  | some sid =>
    match counters.servers.lookup sid with
    | some c => c
    | none => ⟨0, 0⟩

/-- Write back the counter for a scope. -/
def writeCounter (counters : MessageCounters) (serverId : Option String)
    (c : HourCounter) : MessageCounters :=
  match serverId with
  | none => { counters with globalCounter := c }
  | some sid =>
    { counters with
        servers := (sid, c) :: counters.servers.filter (fun p => p.1 ≠ sid) }

/-- The result of a shouldGoAway call: the returned boolean plus the mutated
aiStatus and messageCounters module state. -/
structure GoAwayResult where
  result : Bool
  status : AiStatus
  counters : MessageCounters
deriving Repr, DecidableEq

/-- shouldGoAway from utils/messageHandler.js.  The sleep check runs first:
outside the active-hours window the status becomes away with reason
time_to_sleep and awayUntil set by setHours(ACTIVE_HOURS_START),
setMinutes(0), and setDate(getDate() + 1) unless the start hour is still
ahead today.  Otherwise the hourly counter for the scope is reset when an
hour has elapsed and compared against MAX_MESSAGES_PER_HOUR. -/
def shouldGoAway (cfg : AvailabilityConfig) (now : TimeMin) (st : AiStatus)
    (counters : MessageCounters) (serverId : Option String) : GoAwayResult :=
  let hour := hourOf now
  if hour < cfg.ACTIVE_HOURS_START ∨ hour ≥ cfg.ACTIVE_HOURS_END then
    let u0 := setHoursMinutesZero now cfg.ACTIVE_HOURS_START
    let u := if hour < cfg.ACTIVE_HOURS_START then addDays u0 0 else addDays u0 1
    ⟨true, ⟨true, "time_to_sleep", some u⟩, counters⟩
  else
    let counters1 :=
      match serverId with
      | some sid => initServerCounter counters sid now
      | none => counters
    let counter := readCounter counters1 serverId
    let counter :=
      if 60 ≤ now - counter.lastReset then ⟨0, now⟩ else counter
    let counters2 := writeCounter counters1 serverId counter
    if counter.hourly ≥ cfg.MAX_MESSAGES_PER_HOUR then
      ⟨true, ⟨true, "tired", some (now + 30)⟩, counters2⟩
    else
      ⟨false, st, counters2⟩

/-- The next occurrence of the active-window start hour boundary: today if
that hour has not yet been reached, otherwise tomorrow.  Stated from the
specification wording, for comparison with the shouldGoAway computation. -/
def nextStartBoundary (cfg : AvailabilityConfig) (now : TimeMin) : TimeMin :=
  if hourOf now < cfg.ACTIVE_HOURS_START then
    dayOf now * 1440 + cfg.ACTIVE_HOURS_START * 60
  else
    (dayOf now + 1) * 1440 + cfg.ACTIVE_HOURS_START * 60

/-! Chat transcript persistence (processUserMessage in the main bot script). -/

/-- One ChatTranscript entry. -/
structure ChatEntry where
  role : String
  content : String
  time : Nat
  context : String
deriving Repr, DecidableEq

/-- The transcript handling of one processUserMessage run, between loading and
saving: push the user entry, truncate to the last 50 when above 50, then push
the agent reply entry; the result is what is persisted. -/
def chatSaveStep (loaded : List ChatEntry) (userEntry botEntry : ChatEntry) :
    List ChatEntry :=
  let chat := loaded ++ [userEntry]
  let chat := if chat.length > 50 then chat.drop (chat.length - 50) else chat
  chat ++ [botEntry]

/-- The persisted transcript after n user turns starting from an empty store,
with fixed entry contents. -/
def chatAfter (userEntry botEntry : ChatEntry) : Nat → List ChatEntry
  | 0 => []
  | n + 1 => chatSaveStep (chatAfter userEntry botEntry n) userEntry botEntry

/-! Multi-provider AI dispatch (askAI in ai/index.js). -/

/-- JavaScript String.prototype.toLowerCase, character by character. -/
def jsToLower (s : String) : String := ⟨s.data.map Char.toLower⟩

/-- The value returned by a successful askAI call. -/
structure AskAIResult where
  response : Option String
  provider : String
  wasFallback : Bool
deriving Repr, DecidableEq

/-- The provider names askAI branches on. -/
def knownProviders : List String := ["openrouter", "gemini", "chutes", "colab"]

/-- Outcome environment: the result of invoking each provider (generated text
or the message of the error it throws). -/
abbrev ProviderEnv := String → Except String String

/-- The primary-provider attempt inside askAI: a known provider is invoked, an
unknown name throws. -/
def runPrimary (env : ProviderEnv) (primary : String) : Except String String :=
  if primary ∈ knownProviders then env primary
  else .error ("Unknown AI provider: " ++ primary)

/-- One fallback attempt inside the askAI loop: a known provider is invoked
(possibly on a converted prompt, which does not change the outcome model); an
unknown name leaves the response variable undefined without throwing. -/
def runFallback (env : ProviderEnv) (fb : String) : Except String (Option String) :=
  if fb ∈ knownProviders then (env fb).map some
  else .ok none

/-- The aggregate error message thrown when the primary and every fallback
have failed. -/
def aggregateErrorMsg (primary primaryErr lastErr : String) : String :=
  "All AI providers failed. Primary (" ++ primary ++ ") error: " ++ primaryErr ++
    ". Last fallback error: " ++ lastErr

/-- The for-loop over fallbackOptions in askAI, carrying lastError. -/
def tryFallbacks (env : ProviderEnv) (primary primaryErr : String) :
    List String → String → Except String AskAIResult
  | [], lastErr => .error (aggregateErrorMsg primary primaryErr lastErr)
  | fb :: rest, _ =>
    match runFallback env fb with
    | .ok r => .ok ⟨r, fb, true⟩
    | .error e => tryFallbacks env primary primaryErr rest e

/-- The dispatcher settings read by askAI (settings.js). -/
structure AISettings where
  PRIMARY_AI : String
  FALLBACK_ENABLED : Bool
  FALLBACK_ORDER : List String
deriving Repr, DecidableEq

/-- The dispatcher values of settings.js. -/
def repoAISettings : AISettings :=
  { PRIMARY_AI := "gemini"
    FALLBACK_ENABLED := true
    FALLBACK_ORDER := ["openrouter", "chutes", "gemini"] }

/-- askAI from ai/index.js: try the lowercased primary provider; on failure,
when fallback is enabled and the fallback order (with the primary filtered
out) is nonempty, try each remaining provider in order, returning at the
first success and otherwise throwing the single aggregate error. -/
def askAI (s : AISettings) (env : ProviderEnv) : Except String AskAIResult :=
  let primary := jsToLower s.PRIMARY_AI
  match runPrimary env primary with
  | .ok r => .ok ⟨some r, primary, false⟩
  | .error primaryErr =>
    if ¬ s.FALLBACK_ENABLED then .error primaryErr
    else if s.FALLBACK_ORDER = [] then
      .error ("Primary AI (" ++ primary ++ ") failed and no fallbacks are configured")
    else
      let fallbackOptions := s.FALLBACK_ORDER.filter (fun ai => jsToLower ai ≠ primary)
      if fallbackOptions = [] then
        .error ("Primary AI (" ++ primary ++ ") failed and no other fallbacks are available")
      else tryFallbacks env primary primaryErr fallbackOptions primaryErr

/-! Concrete sample values used to instantiate the theorems. -/

/-- A sample relationship memory record. -/
def memSample : RelationshipMemory :=
  { facts := ["likes tea"]
    trustLevel := 7
    romanticLevel := 1
    censorshipLevel := 3
    mood := "happy"
    energy := "energetic" }

/-- A relationship memory record whose numeric levels are 0 and whose mood and
energy strings are empty: every field is falsy in JavaScript. -/
def falsyMem : RelationshipMemory :=
  { facts := []
    trustLevel := 0
    romanticLevel := 0
    censorshipLevel := 0
    mood := ""
    energy := "" }

/-- An empty DM store. -/
def emptyDMStore : DMStore := fun _ => none

/-- A DM store holding falsyMem for one user. -/
def dmStoreSample : DMStore :=
  fun k => if k = ("himari", "u1") then some falsyMem else none

/-- A per-user per-server store holding falsyMem for one user in one server. -/
def suStoreSample : ServerUserStore :=
  fun k => if k = ("himari", "u1", "s1") then some falsyMem else none

/-- An empty server-global store. -/
def emptyServerStore : ServerStore := fun _ => none

/-- Sample batched messages: same author and channel, different attachments. -/
def msgA : Msg := ⟨"hello", "u1", "c1", none, ["first.png"]⟩

/-- Second sample message of the batch. -/
def msgB : Msg := ⟨"again", "u1", "c1", none, ["second.png"]⟩

/-- Third sample message of the batch. -/
def msgC : Msg := ⟨"done", "u1", "c1", none, []⟩

/-- A buffer table with one two-message batch under one key. -/
def buffersAB : Buffers := [("u1-c1", ⟨[msgA, msgB], none⟩)]

/-- A buffer table with one three-message batch under one key. -/
def buffersABC : Buffers := [("u1-c1", ⟨[msgA, msgB, msgC], none⟩)]

/-- Sample transcript entry for the user side. -/
def userEntrySample : ChatEntry := ⟨"user", "hi", 0, "dm"⟩

/-- Sample transcript entry for the agent side. -/
def botEntrySample : ChatEntry := ⟨"himari", "yo", 0, "dm"⟩

/-- Provider outcomes where only chutes succeeds. -/
def envC1 : ProviderEnv :=
  fun p => if p = "chutes" then .ok "hey" else .error (p ++ " unavailable")

/-- Provider outcomes where every provider fails. -/
def envAllFail : ProviderEnv := fun p => .error (p ++ " down")

/-! Theorems. -/

/-- C5: saving a RelationshipMemory and then loading it for the same identity
key returns a value equal to what was saved, and loading an identity key that
has never been saved returns exactly the documented default record. -/
theorem saveDMMemory_loadDMMemory_roundtrip (store : DMStore)
    (botRole userId : String) (m : RelationshipMemory)
    (hnever : store (botRole, userId) = none) :
    loadDMMemory (saveDMMemory store botRole userId m) botRole userId = m ∧
    loadDMMemory store botRole userId =
      { facts := [], trustLevel := 5, romanticLevel := 0, censorshipLevel := 8,
        mood := "neutral", energy := "normal" } := by
  constructor
  · simp [loadDMMemory, saveDMMemory]
  · simp [loadDMMemory, hnever, createDefaultMemory]

/-- Witness for the C5 theorem at a concrete store, key and record. -/
theorem saveDMMemory_loadDMMemory_roundtrip_witness :
    loadDMMemory (saveDMMemory emptyDMStore "himari" "u1" memSample) "himari" "u1"
        = memSample ∧
    loadDMMemory emptyDMStore "himari" "u1" =
      { facts := [], trustLevel := 5, romanticLevel := 0, censorshipLevel := 8,
        mood := "neutral", energy := "normal" } :=
  saveDMMemory_loadDMMemory_roundtrip emptyDMStore "himari" "u1" memSample rfl

/-- C10: the combined prompt memory reads every stored field through a
falsy-coalescing default, so a stored trust level 0, censorship level 0, or
empty mood or energy string is replaced by the default value in the view, in
both the private and the community context; a stored trust level of 0 is
never observable by the prompt builder. -/
theorem getCombinedPromptMemory_falsy_defaults
    (dm : DMStore) (su : ServerUserStore) (sg : ServerStore)
    (botRole userId sid : String) (m : RelationshipMemory) :
    (dm (botRole, userId) = some m →
      (m.trustLevel = 0 →
        (getCombinedPromptMemory dm su sg botRole userId none none).trustLevel = 5) ∧
      (m.censorshipLevel = 0 →
        (getCombinedPromptMemory dm su sg botRole userId none none).censorshipLevel = 8) ∧
      (m.mood = "" →
        (getCombinedPromptMemory dm su sg botRole userId none none).userMood = "neutral") ∧
      (m.energy = "" →
        (getCombinedPromptMemory dm su sg botRole userId none none).userEnergy = "normal")) ∧
    (su (botRole, userId, sid) = some m →
      (m.trustLevel = 0 →
        (getCombinedPromptMemory dm su sg botRole userId (some sid) none).trustLevel = 5) ∧
      (m.censorshipLevel = 0 →
        (getCombinedPromptMemory dm su sg botRole userId (some sid) none).censorshipLevel = 8) ∧
      (m.mood = "" →
        (getCombinedPromptMemory dm su sg botRole userId (some sid) none).userMood = "neutral") ∧
      (m.energy = "" →
        (getCombinedPromptMemory dm su sg botRole userId (some sid) none).userEnergy = "normal")) := by
  constructor
  · intro h
    refine ⟨fun h0 => ?_, fun h0 => ?_, fun h0 => ?_, fun h0 => ?_⟩ <;>
      simp [getCombinedPromptMemory, loadDMMemory, h, jsOrInt, jsOrStr, h0]
  · intro h
    refine ⟨fun h0 => ?_, fun h0 => ?_, fun h0 => ?_, fun h0 => ?_⟩ <;>
      simp [getCombinedPromptMemory, loadServerUserMemory, h, jsOrInt, jsOrStr, h0]

/-- Witness for the C10 theorem at concrete stores and the all-falsy record. -/
theorem getCombinedPromptMemory_falsy_defaults_witness :
    (getCombinedPromptMemory dmStoreSample suStoreSample emptyServerStore
        "himari" "u1" none none).trustLevel = 5 ∧
    (getCombinedPromptMemory dmStoreSample suStoreSample emptyServerStore
        "himari" "u1" (some "s1") none).userMood = "neutral" := by
  have h := getCombinedPromptMemory_falsy_defaults dmStoreSample suStoreSample
    emptyServerStore "himari" "u1" "s1" falsyMem
  exact ⟨(h.1 (by simp [dmStoreSample])).1 rfl, (h.2 (by simp [suStoreSample])).2.2.1 rfl⟩

/-- Deleting a key from the buffer table makes subsequent lookups miss. -/
theorem lookup_eraseKey (buffers : Buffers) (key : String) :
    (eraseKey buffers key).lookup key = none := by
  induction buffers with
  | nil => rfl
  | cons p t ih =>
    rcases p with ⟨k, v⟩
    by_cases h : k = key
    · simpa [eraseKey, h] using ih
    · have h2 : (key == k) = false := by
        simp [beq_iff_eq]
        exact fun hh => h hh.symm
      rw [show eraseKey ((k, v) :: t) key = (k, v) :: eraseKey t key from by
            simp [eraseKey, h]]
      rw [List.lookup, h2]
      exact ih

/-- C3: flushing a buffer holding three messages invokes the processing
callback exactly once with content joining the three bodies with newlines in
arrival order, deletes the buffer entry, and a second flush of the same key is
a no-op that invokes the callback zero times. -/
theorem processBatchedMessages_flush (buffers : Buffers) (key : String)
    (m1 m2 m3 : Msg) (sid : Option String)
    (h : buffers.lookup key = some ⟨[m1, m2, m3], sid⟩) :
    ((processBatchedMessages buffers key).2.map (fun c => c.content))
        = [m1.content ++ "\n" ++ m2.content ++ "\n" ++ m3.content] ∧
    ((processBatchedMessages buffers key).1.lookup key) = none ∧
    processBatchedMessages (processBatchedMessages buffers key).1 key
        = ((processBatchedMessages buffers key).1, []) := by
  have hrun : processBatchedMessages buffers key =
      (eraseKey buffers key,
        [{ content := jsJoin "\n" [m1.content, m2.content, m3.content]
           authorId := m1.authorId
           channelId := m1.channelId
           guildId := m1.guildId
           attachments := m3.attachments
           isBatched := true
           originalMessages := [m1, m2, m3]
           serverId := sid }]) := by
    simp [processBatchedMessages, h]
  refine ⟨?_, ?_, ?_⟩
  · rw [hrun]
    simp [jsJoin, String.append_assoc]
  · rw [hrun]
    exact lookup_eraseKey buffers key
  · rw [hrun]
    simp [processBatchedMessages, lookup_eraseKey]

/-- Witness for the C3 theorem at a concrete three-message buffer. -/
theorem processBatchedMessages_flush_witness :
    ((processBatchedMessages buffersABC "u1-c1").2.map (fun c => c.content))
        = [msgA.content ++ "\n" ++ msgB.content ++ "\n" ++ msgC.content] ∧
    ((processBatchedMessages buffersABC "u1-c1").1.lookup "u1-c1") = none ∧
    processBatchedMessages (processBatchedMessages buffersABC "u1-c1").1 "u1-c1"
        = ((processBatchedMessages buffersABC "u1-c1").1, []) :=
  processBatchedMessages_flush buffersABC "u1-c1" msgA msgB msgC none rfl

/-- C4 counterexample: for a two-message batch whose messages carry different
attachments, the combined message carries the attachments of the last message,
not those of the first. -/
theorem processBatchedMessages_attachments_not_first :
    ((processBatchedMessages buffersAB "u1-c1").2.map (fun c => c.attachments))
        = [["second.png"]] ∧
    ¬ ((processBatchedMessages buffersAB "u1-c1").2.map (fun c => c.attachments))
        = [msgA.attachments] := by
  constructor
  · rfl
  · decide

/-- C4 amended: the combined message inherits channel and guild identity from
the first message of the batch and its content is the newline join of all
buffered bodies, but its attachments are taken from the last message of the
batch. -/
theorem processBatchedMessages_metadata (buffers : Buffers) (key : String)
    (first : Msg) (rest : List Msg) (sid : Option String)
    (h : buffers.lookup key = some ⟨first :: rest, sid⟩) :
    ∃ c : CombinedMessage,
      (processBatchedMessages buffers key).2 = [c] ∧
      c.channelId = first.channelId ∧
      c.guildId = first.guildId ∧
      c.serverId = sid ∧
      c.content = jsJoin "\n" ((first :: rest).map (fun m => m.content)) ∧
      c.attachments = ((first :: rest).getLast (List.cons_ne_nil first rest)).attachments := by
  refine ⟨{ content := jsJoin "\n" ((first :: rest).map (fun m => m.content))
            authorId := first.authorId
            channelId := first.channelId
            guildId := first.guildId
            attachments := ((first :: rest).getLast (List.cons_ne_nil first rest)).attachments
            isBatched := decide (1 < (first :: rest).length)
            originalMessages := first :: rest
            serverId := sid }, ?_, rfl, rfl, rfl, rfl, rfl⟩
  simp [processBatchedMessages, h]

/-- Witness for the amended C4 theorem at the concrete two-message buffer. -/
theorem processBatchedMessages_metadata_witness :
    ∃ c : CombinedMessage,
      (processBatchedMessages buffersAB "u1-c1").2 = [c] ∧
      c.channelId = msgA.channelId ∧
      c.guildId = msgA.guildId ∧
      c.serverId = none ∧
      c.content = jsJoin "\n" ([msgA, msgB].map (fun m => m.content)) ∧
      c.attachments = (([msgA, msgB]).getLast (List.cons_ne_nil msgA [msgB])).attachments :=
  processBatchedMessages_metadata buffersAB "u1-c1" msgA [msgB] none rfl

/-- C6: after an extraction merge the facts list has no duplicates, has at
most 30 entries (exactly min of 30 and the deduplicated union size), and is a
suffix of the deduplicated union of old and new facts in insertion order, so
eviction drops the oldest facts first and retains the most recently added
ones.  Every merge in a sequence has this shape, so the invariant holds after
each merge. -/
theorem mergeFacts_invariant (old newFacts : List String) :
    (mergeFacts old newFacts).Nodup ∧
    (mergeFacts old newFacts).length ≤ 30 ∧
    (mergeFacts old newFacts).length = min (jsSetDedup (old ++ newFacts)).length 30 ∧
    mergeFacts old newFacts <:+ jsSetDedup (old ++ newFacts) := by
  have hd : (jsSetDedup (old ++ newFacts)).Nodup :=
    List.nodup_reverse.mpr (List.nodup_dedup _)
  refine ⟨?_, ?_, ?_, ?_⟩
  · exact hd.sublist (List.drop_sublist _ _)
  · simp only [mergeFacts, jsSliceLast, List.length_drop]
    omega
  · simp only [mergeFacts, jsSliceLast, List.length_drop]
    omega
  · exact List.drop_suffix _ _

/-- For every text, energy state and random draw, the computed delay equals
min of 2500 and 0.6 times the clamp of base-plus-variance to the configured
range; this shape bounds it into [1200, 2500]. -/
theorem typingClampShape_bounds (b v : ℚ) :
    1200 ≤ min (min (max (b + v) MIN_TYPING_DELAY) MAX_TYPING_DELAY * (3 / 5)) 2500 ∧
    min (min (max (b + v) MIN_TYPING_DELAY) MAX_TYPING_DELAY * (3 / 5)) 2500 ≤ 2500 := by
  have hcge : (2000 : ℚ) ≤ min (max (b + v) MIN_TYPING_DELAY) MAX_TYPING_DELAY := by
    refine le_min ?_ ?_
    · exact le_trans (by norm_num [MIN_TYPING_DELAY]) (le_max_right _ _)
    · norm_num [MAX_TYPING_DELAY]
  constructor
  · refine le_min ?_ (by norm_num)
    linarith
  · exact min_le_right _ _

/-- C7 counterexample: with an empty response text, normal energy and the
median random draw 1/2, the computed delay is 1200, strictly below the
configured floor MIN_TYPING_DELAY = 2000: the 0.6 compression factor is
applied after the clamp to the configured range. -/
theorem getRealisticTypingDelay_below_floor :
    getRealisticTypingDelay "" false (1 / 2) = 1200 ∧
    ¬ MIN_TYPING_DELAY ≤ getRealisticTypingDelay "" false (1 / 2) := by
  have h : getRealisticTypingDelay "" false (1 / 2) = 1200 := by
    norm_num [getRealisticTypingDelay, getTypingDelay, MIN_TYPING_DELAY, MAX_TYPING_DELAY]
  refine ⟨h, ?_⟩
  rw [h]
  norm_num [MIN_TYPING_DELAY]

/-- C7 amended: for every response text, energy state and random draw, the
typing delay is at most the 2500 hard ceiling and at least 1200, which is 0.6
times the configured floor MIN_TYPING_DELAY; the configured floor itself is
not a lower bound of the result. -/
theorem getRealisticTypingDelay_bounds (text : String) (energyLow : Bool) (rand : ℚ) :
    1200 ≤ getRealisticTypingDelay text energyLow rand ∧
    getRealisticTypingDelay text energyLow rand ≤ 2500 :=
  typingClampShape_bounds
    (getTypingDelay text (if energyLow then "tired" else "normal"))
    (getTypingDelay text (if energyLow then "tired" else "normal") * (1 / 5) * (rand * 2 - 1))

/-- C8: when the current hour is outside the active-hours window, shouldGoAway
returns true, marks the status away with reason time_to_sleep, and sets
awayUntil to the next occurrence of the window start hour boundary: today when
that hour has not yet been reached, otherwise tomorrow. -/
theorem shouldGoAway_sleep (cfg : AvailabilityConfig) (now : TimeMin)
    (st : AiStatus) (counters : MessageCounters) (serverId : Option String)
    (hout : hourOf now < cfg.ACTIVE_HOURS_START ∨ hourOf now ≥ cfg.ACTIVE_HOURS_END) :
    shouldGoAway cfg now st counters serverId =
      ⟨true, ⟨true, "time_to_sleep", some (nextStartBoundary cfg now)⟩, counters⟩ := by
  simp only [shouldGoAway, if_pos hout]
  refine congrArg (fun u => GoAwayResult.mk true ⟨true, "time_to_sleep", some u⟩ counters) ?_
  by_cases h : hourOf now < cfg.ACTIVE_HOURS_START
  · simp only [if_pos h, nextStartBoundary, setHoursMinutesZero, addDays]
    ring
  · simp only [if_neg h, nextStartBoundary, setHoursMinutesZero, addDays]
    ring

/-- Witness for the C8 theorem at 03:00 with the configured 7-to-24 window. -/
theorem shouldGoAway_sleep_witness :
    shouldGoAway repoAvailabilityConfig 180 ⟨false, "", none⟩ ⟨⟨0, 0⟩, []⟩ none =
      ⟨true, ⟨true, "time_to_sleep", some (nextStartBoundary repoAvailabilityConfig 180)⟩,
        ⟨⟨0, 0⟩, []⟩⟩ :=
  shouldGoAway_sleep repoAvailabilityConfig 180 ⟨false, "", none⟩ ⟨⟨0, 0⟩, []⟩ none
    (by decide)

set_option maxRecDepth 8192 in
/-- C9 counterexample: starting from an empty transcript store, after 26
processed turns the persisted transcript holds 51 entries, exceeding 50:
truncation to the most recent 50 happens before the agent reply is appended,
and the save is not truncated again. -/
theorem chatAfter_26_exceeds_50 :
    (chatAfter userEntrySample botEntrySample 26).length = 51 ∧
    ¬ (chatAfter userEntrySample botEntrySample 26).length ≤ 50 := by
  constructor <;> decide

/-- C9 amended: every persisted transcript of the message-processing flow
contains at most 51 entries: the loaded transcript plus the user entry is
truncated to the most recent 50, and the single agent reply entry is appended
after the truncation. -/
theorem chatSaveStep_length_le (loaded : List ChatEntry) (u b : ChatEntry) :
    (chatSaveStep loaded u b).length ≤ 51 := by
  simp only [chatSaveStep]
  split <;> rename_i h <;>
    simp only [List.length_append, List.length_drop, List.length_cons,
      List.length_nil] at h ⊢ <;> omega

/-- A known primary provider is simply invoked. -/
theorem runPrimary_known (env : ProviderEnv) (p : String) (hp : p ∈ knownProviders) :
    runPrimary env p = env p := by
  simp [runPrimary, hp]

/-- When the primary fails, fallback is enabled and the filtered fallback
order is nonempty, askAI runs the fallback loop on the filtered order. -/
theorem askAI_fallback_eq (s : AISettings) (env : ProviderEnv) (e0 : String)
    (hfb : s.FALLBACK_ENABLED = true)
    (hp : jsToLower s.PRIMARY_AI ∈ knownProviders)
    (hep : env (jsToLower s.PRIMARY_AI) = .error e0)
    (hne : s.FALLBACK_ORDER.filter (fun ai => jsToLower ai ≠ jsToLower s.PRIMARY_AI) ≠ []) :
    askAI s env = tryFallbacks env (jsToLower s.PRIMARY_AI) e0
      (s.FALLBACK_ORDER.filter (fun ai => jsToLower ai ≠ jsToLower s.PRIMARY_AI)) e0 := by
  have hord : s.FALLBACK_ORDER ≠ [] := by
    intro h0
    apply hne
    rw [h0]
    rfl
  simp only [askAI, runPrimary_known env _ hp, hep]
  rw [if_neg (fun h => h hfb), if_neg hord, if_neg hne]

/-- C1: with fallback enabled, when the primary provider fails, the first
remaining fallback provider fails and the second succeeds, askAI returns the
text generated by the second fallback with provider equal to its name and
wasFallback true, and no error propagates to the caller. -/
theorem askAI_second_fallback (s : AISettings) (env : ProviderEnv)
    (f1 f2 e0 e1 t : String)
    (hfb : s.FALLBACK_ENABLED = true)
    (hp : jsToLower s.PRIMARY_AI ∈ knownProviders)
    (hf1 : f1 ∈ knownProviders) (hf2 : f2 ∈ knownProviders)
    (horder : s.FALLBACK_ORDER.filter (fun ai => jsToLower ai ≠ jsToLower s.PRIMARY_AI)
        = [f1, f2])
    (hep : env (jsToLower s.PRIMARY_AI) = .error e0)
    (he1 : env f1 = .error e1)
    (he2 : env f2 = .ok t) :
    askAI s env = .ok ⟨some t, f2, true⟩ := by
  rw [askAI_fallback_eq s env e0 hfb hp hep (by rw [horder]; exact List.cons_ne_nil f1 [f2]),
    horder]
  have s1 : runFallback env f1 = .error e1 := by
    simp [runFallback, hf1, he1, Except.map]
  have s2 : runFallback env f2 = .ok (some t) := by
    simp [runFallback, hf2, he2, Except.map]
  simp [tryFallbacks, s1, s2]

/-- Witness for the C1 theorem at the repository settings: the primary gemini
fails, openrouter fails, chutes succeeds. -/
theorem askAI_second_fallback_witness :
    askAI repoAISettings envC1 = .ok ⟨some "hey", "chutes", true⟩ :=
  askAI_second_fallback repoAISettings envC1 "openrouter" "chutes"
    "gemini unavailable" "openrouter unavailable" "hey"
    rfl (by decide) (by decide) (by decide) (by decide) rfl rfl rfl

/-- Running the fallback loop when every option fails yields the single
aggregate error built from the primary error and the error of the last
option. -/
theorem tryFallbacks_all_fail (env : ProviderEnv) (primary primaryErr : String) :
    ∀ (init : List String) (lastFb lastErr elast : String),
      (∀ fb ∈ init, ∃ e, runFallback env fb = .error e) →
      runFallback env lastFb = .error elast →
      tryFallbacks env primary primaryErr (init ++ [lastFb]) lastErr =
        .error (aggregateErrorMsg primary primaryErr elast)
  | [], lastFb, lastErr, elast, _, hlast => by
    simp [tryFallbacks, hlast]
  | fb :: init, lastFb, lastErr, elast, hfail, hlast => by
    obtain ⟨e, he⟩ := hfail fb (by simp)
    have step := tryFallbacks_all_fail env primary primaryErr init lastFb e elast
      (fun x hx => hfail x (List.mem_cons_of_mem fb hx)) hlast
    calc tryFallbacks env primary primaryErr ((fb :: init) ++ [lastFb]) lastErr
        = tryFallbacks env primary primaryErr (init ++ [lastFb]) e := by
          simp [tryFallbacks, he]
      _ = .error (aggregateErrorMsg primary primaryErr elast) := step

/-- C2: when the primary provider and every configured fallback provider fail,
askAI raises exactly one aggregate error whose message is built from the
primary error text and the error text of the last attempted fallback provider,
and no text value is returned to the caller. -/
theorem askAI_all_fail (s : AISettings) (env : ProviderEnv)
    (e0 elast lastFb : String) (init : List String)
    (hfb : s.FALLBACK_ENABLED = true)
    (hp : jsToLower s.PRIMARY_AI ∈ knownProviders)
    (hep : env (jsToLower s.PRIMARY_AI) = .error e0)
    (hsplit : s.FALLBACK_ORDER.filter (fun ai => jsToLower ai ≠ jsToLower s.PRIMARY_AI)
        = init ++ [lastFb])
    (hfail : ∀ fb ∈ init, ∃ e, runFallback env fb = .error e)
    (hlast : runFallback env lastFb = .error elast) :
    askAI s env = .error (aggregateErrorMsg (jsToLower s.PRIMARY_AI) e0 elast) := by
  rw [askAI_fallback_eq s env e0 hfb hp hep (by rw [hsplit]; simp), hsplit]
  exact tryFallbacks_all_fail env (jsToLower s.PRIMARY_AI) e0 init lastFb e0 elast hfail hlast

/-- Witness for the C2 theorem at the repository settings with every provider
failing: openrouter and chutes are the attempted fallbacks and chutes is the
last one. -/
theorem askAI_all_fail_witness :
    askAI repoAISettings envAllFail =
      .error (aggregateErrorMsg (jsToLower "gemini") "gemini down" "chutes down") := by
  refine askAI_all_fail repoAISettings envAllFail "gemini down" "chutes down"
    "chutes" ["openrouter"] rfl (by decide) rfl (by decide) ?_ rfl
  intro fb hfb
  have hmem : fb = "openrouter" := by
    simpa using hfb
  subst hmem
  exact ⟨"openrouter down", rfl⟩

end DC
